import Mathlib

/-!
# Verification of the rtios-ai storage, snapshot/hydrate and error-handling core

Shallow embedding of the job/resume storage adapters
(`domains/jobs/services/jobStorage.ts`, `domains/career/services/careerStorage.ts`,
`src/types/storage.ts`), the career store (`CareerContextProvider`), the error
classifier (`src/services/errorService.ts`), the generation step
(`App.tsx` `handleGenerate`) and the snapshot/hydrate coordinator, together with
proofs of the specification's testable properties.

JavaScript values are modelled explicitly: strings are split into ISO-8601 date
strings (carrying their timestamp) and ordinary text; JSON values are a small
inductive; `localStorage` holds one blob that is missing, unparseable, or a JSON
value; computations that can throw are modelled in `Except` with `try/catch`
mapped to a handler on the error case.
-/

/-- A JavaScript string: either an ISO-8601 date string denoting timestamp `t`
(milliseconds), or any other text.  `new Date(s)` on an ISO string recovers `t`;
on other text it yields an invalid date. -/
inductive Str where
  | iso (t : Nat)
  | txt (s : String)
deriving DecidableEq, Repr

/-- A JavaScript `Date` value: `some t` is a valid date with timestamp `t`,
`none` is `Invalid Date`. -/
abbrev DateV := Option Nat

/-- JS string truthiness: only the empty string is falsy. -/
def Str.truthy : Str → Bool
  | .iso _ => true
  | .txt s => !(s = "")

/-- `new Date(s)` for a string `s`: ISO strings parse to their timestamp,
other text yields an invalid date. -/
def newDate : Str → DateV
  | .iso t => some t
  | .txt _ => none

/-- `Date.prototype.toJSON`: a valid date serializes to its ISO string, an
invalid date serializes to `null` (modelled one level up). -/
def dateToStr : DateV → Option Str
  | some t => some (.iso t)
  | none => none

/-- A JSON value (also used as the model of plain JavaScript data objects). -/
inductive Json where
  | null
  | bool (b : Bool)
  | num (n : Int)
  | str (s : Str)
  | arr (xs : List Json)
  | obj (fields : List (String × Json))

namespace Json

/-- Property access `v[k]` on a JSON value: defined field lookup on objects,
`undefined` (here `none`) otherwise. -/
def get : Json → String → Option Json
  | .obj fields, k => fields.lookup k
  | _, _ => none

/-- JS truthiness of a JSON value. -/
def truthy : Json → Bool
  | .null => false
  | .bool b => b
  | .num n => !(n = 0)
  | .str s => s.truthy
  | .arr _ => true
  | .obj _ => true

/-- `x || d` for an optional JS value `x` (absent or falsy falls back). -/
def orElseJs (x : Option Json) (d : Json) : Json :=
  match x with
  | some v => if v.truthy then v else d
  | none => d

/-- Is this value a JSON string (`typeof v === 'string'`)? -/
def isStr : Json → Bool
  | .str _ => true
  | _ => false

/-- `typeof v === 'object' && v !== null` (arrays are objects in JS). -/
def isObjectLike : Json → Bool
  | .obj _ => true
  | .arr _ => true
  | _ => false

/-- Extract a string field if present with string type, else `undefined`. -/
def getStr (v : Json) (k : String) : Option Str :=
  match v.get k with
  | some (.str s) => some s
  | _ => none

end Json

/-- The single `localStorage` slot under `rtios_local_data_v1`: the key may be
missing, hold a string `JSON.parse` rejects, or hold a string parsing to `v`. -/
inductive StorageBlob where
  | missing
  | corrupt
  | json (v : Json)

/-- `JSON.parse(localStorage.getItem(KEY))` as an exception-producing step:
`missing` short-circuits before parsing (handled by callers), `corrupt`
throws. -/
def parseBlob : StorageBlob → Except Unit (Option Json)
  | .missing => .ok none
  | .corrupt => .error ()
  | .json v => .ok (some v)

/-! ## Stored and runtime shapes (`src/types/storage.ts`, domain types) -/

/-- Stored (serialized) shape of a resume, dates as ISO strings. -/
structure StoredResume where
  id : Str
  fileName : Str
  textParams : Str
  uploadDate : Str
  version : Option Int

/-- Stored (serialized) shape of a job record. -/
structure StoredJobInfo where
  id : Option Str
  title : Str
  company : Str
  description : Str
  companyUrl : Option Str
  sourceUrl : Option Str
  dateAdded : Option Str
  contextName : Option Str
  linkedResumeId : Option Str
  outputs : Option Json
  version : Option Int

/-- Runtime `SavedResume`: `file` is the in-memory `File` handle (opaque here),
never persisted. -/
structure SavedResume where
  id : Str
  fileName : Str
  file : Option Unit
  textParams : Str
  uploadDate : DateV
deriving DecidableEq

/-- Runtime `JobInfo`: dates revived from ISO strings (possibly invalid),
`outputs` carried through storage as raw JSON (the TS code casts it). -/
structure JobInfo where
  id : Option Str
  title : Str
  company : Str
  description : Str
  companyUrl : Option Str
  sourceUrl : Option Str
  dateAdded : Option DateV
  contextName : Option Str
  linkedResumeId : Option Str
  outputs : Option Json

/-- Helper: the field `k` is present with string type. -/
def Json.fieldIsStr (v : Json) (k : String) : Bool :=
  (v.getStr k).isSome

/-- Helper: the field `k` is absent (`=== undefined`) or present with string
type. -/
def Json.fieldAbsentOrStr (v : Json) (k : String) : Bool :=
  match v.get k with
  | none => true
  | some w => w.isStr

/-- Helper: the field `k` is absent or a number. -/
def Json.fieldAbsentOrNum (v : Json) (k : String) : Bool :=
  match v.get k with
  | none => true
  | some (.num _) => true
  | some _ => false

/-- Helper: extract a numeric field, `undefined` otherwise. -/
def Json.getNum (v : Json) (k : String) : Option Int :=
  match v.get k with
  | some (.num n) => some n
  | _ => none

/-- Type guard `isStoredResume` from `src/types/storage.ts`. -/
def isStoredResume (v : Json) : Bool :=
  v.isObjectLike &&
  v.fieldIsStr "id" && v.fieldIsStr "fileName" &&
  v.fieldIsStr "textParams" && v.fieldIsStr "uploadDate" &&
  v.fieldAbsentOrNum "version"

/-- Type guard `isStoredJobInfo` from `src/types/storage.ts`. -/
def isStoredJobInfo (v : Json) : Bool :=
  v.isObjectLike &&
  v.fieldIsStr "title" && v.fieldIsStr "company" && v.fieldIsStr "description" &&
  v.fieldAbsentOrStr "id" && v.fieldAbsentOrStr "companyUrl" &&
  v.fieldAbsentOrStr "sourceUrl" && v.fieldAbsentOrStr "dateAdded" &&
  v.fieldAbsentOrStr "contextName" && v.fieldAbsentOrStr "linkedResumeId" &&
  v.fieldAbsentOrNum "version"

/-- `migrateResumeData`: accept versioned data as-is (the guarded projection of
its declared fields), else migrate legacy data carrying the four required
string fields, else reject. -/
def migrateResumeData (v : Json) : Option StoredResume :=
  if isStoredResume v then
    some { id := (v.getStr "id").getD (.txt ""),
           fileName := (v.getStr "fileName").getD (.txt ""),
           textParams := (v.getStr "textParams").getD (.txt ""),
           uploadDate := (v.getStr "uploadDate").getD (.txt ""),
           version := v.getNum "version" }
  else if v.isObjectLike then
    match v.getStr "id", v.getStr "fileName", v.getStr "textParams", v.getStr "uploadDate" with
    | some i, some fn, some tp, some ud =>
        some { id := i, fileName := fn, textParams := tp, uploadDate := ud, version := some 1 }
    | _, _, _, _ => none
  else none

/-- `migrateJobData`: accept versioned data as-is, else migrate legacy data
carrying string `title`/`company`/`description` (wrongly-typed optional fields
are coerced to `undefined`), else reject. -/
def migrateJobData (v : Json) : Option StoredJobInfo :=
  if isStoredJobInfo v then
    some { id := v.getStr "id",
           title := (v.getStr "title").getD (.txt ""),
           company := (v.getStr "company").getD (.txt ""),
           description := (v.getStr "description").getD (.txt ""),
           companyUrl := v.getStr "companyUrl",
           sourceUrl := v.getStr "sourceUrl",
           dateAdded := v.getStr "dateAdded",
           contextName := v.getStr "contextName",
           linkedResumeId := v.getStr "linkedResumeId",
           outputs := v.get "outputs",
           version := v.getNum "version" }
  else if v.isObjectLike then
    match v.getStr "title", v.getStr "company", v.getStr "description" with
    | some t, some c, some d =>
        some { id := v.getStr "id", title := t, company := c, description := d,
               companyUrl := v.getStr "companyUrl",
               sourceUrl := v.getStr "sourceUrl",
               dateAdded := v.getStr "dateAdded",
               contextName := v.getStr "contextName",
               linkedResumeId := v.getStr "linkedResumeId",
               outputs := v.get "outputs",
               version := some 1 }
    | _, _, _ => none
  else none

/-- `toResume`: stored → runtime; the file handle is not restored, the ISO
string is revived with `new Date`. -/
def toResume (s : StoredResume) : SavedResume :=
  { id := s.id, fileName := s.fileName, file := none,
    textParams := s.textParams, uploadDate := newDate s.uploadDate }

/-- `toJobInfo`: stored → runtime; `dateAdded` is revived only when truthy
(`stored.dateAdded ? new Date(stored.dateAdded) : undefined`), `outputs` is
trusted as-is. -/
def toJobInfo (s : StoredJobInfo) : JobInfo :=
  { id := s.id, title := s.title, company := s.company, description := s.description,
    companyUrl := s.companyUrl, sourceUrl := s.sourceUrl,
    dateAdded := match s.dateAdded with
      | some d => if d.truthy then some (newDate d) else none
      | none => none,
    contextName := s.contextName, linkedResumeId := s.linkedResumeId,
    outputs := s.outputs }

/-- `parseStoredResume`: safe parse of unknown data into a runtime resume
(nothing in the model can throw inside, so the inner try/catch is inert). -/
def parseStoredResume (v : Json) : Option SavedResume :=
  (migrateResumeData v).map toResume

/-- `parseStoredJobInfo`: safe parse of unknown data into a runtime job. -/
def parseStoredJobInfo (v : Json) : Option JobInfo :=
  (migrateJobData v).map toJobInfo

/-! ## Serialization (`JSON.stringify` of the runtime shapes) -/

/-- A `Date` under `JSON.stringify`: ISO string when valid, `null` when not. -/
def encodeDate : DateV → Json
  | some t => .str (.iso t)
  | none => .null

/-- A field present only when the runtime value is defined (`JSON.stringify`
omits `undefined` members). -/
def optField (k : String) (v : Option Json) : List (String × Json) :=
  match v with
  | some w => [(k, w)]
  | none => []

/-- `JSON.stringify` image of a runtime resume with the `file` handle stripped
(`const { file, ...rest } = r`). -/
def encodeResume (r : SavedResume) : Json :=
  .obj [("id", .str r.id), ("fileName", .str r.fileName),
        ("textParams", .str r.textParams), ("uploadDate", encodeDate r.uploadDate)]

/-- `JSON.stringify` image of a runtime job. -/
def encodeJob (j : JobInfo) : Json :=
  .obj (optField "id" (j.id.map .str) ++
    [("title", .str j.title), ("company", .str j.company),
     ("description", .str j.description)] ++
    optField "companyUrl" (j.companyUrl.map .str) ++
    optField "sourceUrl" (j.sourceUrl.map .str) ++
    optField "dateAdded" (j.dateAdded.map encodeDate) ++
    optField "contextName" (j.contextName.map .str) ++
    optField "linkedResumeId" (j.linkedResumeId.map .str) ++
    optField "outputs" j.outputs)

/-! ## Object spread (`{...a, ...b}`) -/

/-- Insert-or-update one field, JS spread semantics: an existing key keeps its
position and gets the new value, a new key is appended. -/
def objUpsert (fs : List (String × Json)) (k : String) (v : Json) :
    List (String × Json) :=
  if fs.any (fun p => p.1 = k) then
    fs.map (fun p => if p.1 = k then (k, v) else p)
  else fs ++ [(k, v)]

/-- Fields contributed by spreading a value into an object literal: an object
contributes its fields, an array its elements under index keys, primitives
nothing. -/
def spreadFields : Json → List (String × Json)
  | .obj fs => fs
  | .arr xs => xs.enum.map (fun p => (toString p.1, p.2))
  | _ => []

/-- `{...base, ...over}` on field lists. -/
def objMerge (base over : List (String × Json)) : List (String × Json) :=
  over.foldl (fun acc p => objUpsert acc p.1 p.2) base

/-! ## Storage adapters

`loadJobsData`/`saveJobsData` from `domains/jobs/services/jobStorage.ts`
(lines 25–57 and 63–83) and `loadCareerData`/`saveCareerData` from
`domains/career/services/careerStorage.ts`.  Each body is modelled in
`Except` (a thrown JS exception is `.error ()`); the `catch` handler is the
wrapper that maps the error case to the function's fallback. -/

/-- The final map of `loadJobsData`: ensure the outputs structure exists
(`outputs: j.outputs || {}`). -/
def ensureOutputs (j : JobInfo) : JobInfo :=
  { j with outputs := some (Json.orElseJs j.outputs (.obj [])) }

/-- Body of `loadJobsData` (everything inside its `try`). -/
def loadJobsDataE (b : StorageBlob) : Except Unit (List JobInfo) := do
  let d ← parseBlob b
  match d with
  | none => return []
  | some data =>
    if !data.isObjectLike then
      return []
    else
      let jobsArray := match data.get "jobs" with
        | some (.arr xs) => xs
        | _ => []
      return ((jobsArray.map parseStoredJobInfo).reduceOption).map ensureOutputs

/-- `loadJobsData`: the `catch` returns the empty list. -/
def loadJobsData (b : StorageBlob) : List JobInfo :=
  match loadJobsDataE b with
  | .ok r => r
  | .error _ => []

/-- Result of `loadCareerData`: resumes plus the user-profile object, which the
code builds by spreading the stored value over defaults. -/
structure CareerLoad where
  resumes : List SavedResume
  userProfile : Json

/-- Default user-profile fields of `loadCareerData`. -/
def defaultProfileFields : List (String × Json) :=
  [("activeResumeId", .null), ("portfolioUrl", .str (.txt "")),
   ("linkedinUrl", .str (.txt ""))]

/-- Body of `loadCareerData` (everything inside its `try`). -/
def loadCareerDataE (b : StorageBlob) : Except Unit (Option CareerLoad) := do
  let d ← parseBlob b
  match d with
  | none => return none
  | some data =>
    if !data.isObjectLike then
      return none
    else
      let resumesArray := match data.get "resumes" with
        | some (.arr xs) => xs
        | _ => []
      let resumes := (resumesArray.map parseStoredResume).reduceOption
      let userProfile := Json.obj (objMerge defaultProfileFields
        (match data.get "userProfile" with
         | some up => if up.isObjectLike then spreadFields up else []
         | none => []))
      return some { resumes := resumes, userProfile := userProfile }

/-- `loadCareerData`: the `catch` returns `null`. -/
def loadCareerData (b : StorageBlob) : Option CareerLoad :=
  match loadCareerDataE b with
  | .ok r => r
  | .error _ => none

/-- Body of `saveJobsData` (everything inside its `try`): read-modify-write of
the shared key, preserving the raw career slices; field access on a parsed
`null` throws. -/
def saveJobsDataE (js : List JobInfo) (b : StorageBlob) : Except Unit StorageBlob := do
  let existing ← parseBlob b
  let slices : Json × Json ←
    match existing with
    | none => .ok (Json.arr [], Json.obj [("activeResumeId", .null)])
    | some .null => .error ()
    | some v => .ok (Json.orElseJs (v.get "resumes") (.arr []),
                     Json.orElseJs (v.get "userProfile") (.obj [("activeResumeId", .null)]))
  return .json (.obj [("resumes", slices.1), ("jobs", .arr (js.map encodeJob)),
                      ("userProfile", slices.2)])

/-- `saveJobsData`: the `catch` leaves prior storage untouched. -/
def saveJobsData (js : List JobInfo) (b : StorageBlob) : StorageBlob :=
  match saveJobsDataE js b with
  | .ok b' => b'
  | .error _ => b

/-- Body of `saveCareerData` (everything inside its `try`): strips file
handles, preserves the raw jobs slice. -/
def saveCareerDataE (rs : List SavedResume) (p : Json) (b : StorageBlob) :
    Except Unit StorageBlob := do
  let existing ← parseBlob b
  let jobsSlice : Json ←
    match existing with
    | none => .ok (Json.arr [])
    | some .null => .error ()
    | some v => .ok (Json.orElseJs (v.get "jobs") (.arr []))
  return .json (.obj [("resumes", .arr (rs.map encodeResume)), ("jobs", jobsSlice),
                      ("userProfile", p)])

/-- `saveCareerData`: the `catch` leaves prior storage untouched. -/
def saveCareerData (rs : List SavedResume) (p : Json) (b : StorageBlob) : StorageBlob :=
  match saveCareerDataE rs p b with
  | .ok b' => b'
  | .error _ => b

/-! ## Career store (`domains/career/CareerContextProvider.tsx`) -/

/-- Runtime user profile. -/
structure UserProfileR where
  activeResumeId : Option Str
  portfolioUrl : Str
  linkedinUrl : Str
deriving DecidableEq

/-- State owned by the career context provider. -/
structure CareerState where
  resumes : List SavedResume
  activeResumeId : Option Str
  userProfile : UserProfileR
deriving DecidableEq

/-- `DEFAULT_PROFILE` and the provider's `useState` initial values. -/
def initialCareerState : CareerState :=
  { resumes := [], activeResumeId := none,
    userProfile := { activeResumeId := none, portfolioUrl := .txt "", linkedinUrl := .txt "" } }

/-- `addResume`: single-resume enforcement — the whole list is replaced. -/
def addResume (s : CareerState) (r : SavedResume) : CareerState :=
  { resumes := [r], activeResumeId := some r.id,
    userProfile := { s.userProfile with activeResumeId := some r.id } }

/-- `selectResume`. -/
def selectResume (s : CareerState) (i : Str) : CareerState :=
  { s with activeResumeId := some i,
           userProfile := { s.userProfile with activeResumeId := some i } }

/-- `deleteResume`. -/
def deleteResume (s : CareerState) (i : Str) : CareerState :=
  { s with resumes := s.resumes.filter (fun r => r.id ≠ i),
           activeResumeId := if s.activeResumeId = some i then none else s.activeResumeId }

/-- `updateProfile`. -/
def updateProfile (s : CareerState) (p : UserProfileR) : CareerState :=
  { s with userProfile := p }

/-- The provider's action interface. -/
inductive CareerAction where
  | addResume (r : SavedResume)
  | selectResume (i : Str)
  | deleteResume (i : Str)
  | updateProfile (p : UserProfileR)

/-- One store transition. -/
def careerStep (s : CareerState) : CareerAction → CareerState
  | .addResume r => addResume s r
  | .selectResume i => selectResume s i
  | .deleteResume i => deleteResume s i
  | .updateProfile p => updateProfile s p

/-- States reachable from the provider's initial state through its actions. -/
inductive CareerReachable : CareerState → Prop where
  | init : CareerReachable initialCareerState
  | step {s : CareerState} (a : CareerAction) :
      CareerReachable s → CareerReachable (careerStep s a)

/-! ## Error service (`src/services/errorService.ts`) -/

/-- `String.prototype.includes`. -/
def containsSub (s pat : String) : Bool :=
  decide (pat.toList <:+: s.toList)

/-- ASCII case lowering of one character (the messages classified here are
ASCII, so this matches `String.prototype.toLowerCase` on them). -/
def lowerChar (c : Char) : Char :=
  if c.toNat ≥ 65 ∧ c.toNat ≤ 90 then Char.ofNat (c.toNat + 32) else c

/-- `String.prototype.toLowerCase` (ASCII). -/
def strToLower (s : String) : String :=
  String.mk (s.data.map lowerChar)

/-- `isNetworkError`. -/
def isNetworkError (msg : String) : Bool :=
  containsSub msg "Network Error" || containsSub msg "Failed to fetch" ||
  containsSub msg "timeout"

/-- `isAuthError`. -/
def isAuthError (msg : String) : Bool :=
  containsSub msg "401" || containsSub msg "403" ||
  containsSub msg "unauthorized" || containsSub msg "forbidden"

/-- `isValidationError`. -/
def isValidationError (msg : String) : Bool :=
  containsSub (strToLower msg) "validation" || containsSub (strToLower msg) "invalid"

/-- `isAIError`. -/
def isAIError (msg : String) : Bool :=
  containsSub msg "429" || containsSub msg "503" ||
  containsSub (strToLower msg) "gemini" || containsSub (strToLower msg) "ai"

/-- `isFileUploadError`. -/
def isFileUploadError (msg : String) : Bool :=
  containsSub (strToLower msg) "file" || containsSub (strToLower msg) "upload" ||
  containsSub (strToLower msg) "parsing"

/-- `ErrorService.handleError`, applied to the caught error's message: the
ordered classifier chain with its user-visible messages (`error.message ||
fallback` on the validation branch). -/
def handleError (msg : String) : String :=
  if isNetworkError msg then
    "Connection issue. Please check your internet and try again."
  else if isAuthError msg then
    "Your session has expired. Please log in again."
  else if isValidationError msg then
    (if msg = "" then "Please check your input and try again." else msg)
  else if isAIError msg then
    "AI service temporarily unavailable. Please try again in a moment."
  else if isFileUploadError msg then
    "Could not read file. Please ensure it's a valid format."
  else
    "Something went wrong. Please try again."

/-- The five categories of the spec's taxonomy plus the catch-all. -/
inductive ErrCategory where
  | network | auth | validation | ai | fileUpload | generic
deriving DecidableEq

/-- The category `handleError` acts on: first matching predicate, in source
order, catch-all otherwise. -/
def classifyError (msg : String) : ErrCategory :=
  if isNetworkError msg then .network
  else if isAuthError msg then .auth
  else if isValidationError msg then .validation
  else if isAIError msg then .ai
  else if isFileUploadError msg then .fileUpload
  else .generic

/-! ## Workspace and job coordination (`App.tsx`, `useJobApplications`) -/

/-- `AppStatus` from `domains/workspace/types.ts`. -/
inductive AppStatus where
  | idle | parsingResume | parsingJobLink | researching | analyzing
  | generating | completed | error
deriving DecidableEq

/-- The transient workspace slice of `AppState` (the persisted-library slice is
owned by the domain hooks).  Content produced by the AI boundary is plain JSON
data (`null` before the first generation). -/
structure AppState where
  status : AppStatus
  error : Option Str
  resumeText : Str
  research : Json
  analysis : Json
  coverLetter : Json
  linkedIn : Json
  interviewPrep : Json

/-- `deleteJob` from `useJobApplications`: filter by strict id inequality and
clear the active id when it was the deleted one. -/
def deleteJob (jobs : List JobInfo) (activeJobId : Option Str) (i : Str) :
    List JobInfo × Option Str :=
  (jobs.filter (fun j => j.id ≠ some i),
   if activeJobId = some i then none else activeJobId)

/-- `updateJobOutputs` from `useJobApplications`: replace the `outputs` of
every job whose id matches. -/
def updateJobOutputs (jobs : List JobInfo) (jobId : Str) (outs : Json) :
    List JobInfo :=
  jobs.map (fun j => if j.id = some jobId then { j with outputs := some outs } else j)

/-- `ToneType.PROFESSIONAL` (the enum's string value; its identity is not
relevant to any claim). -/
def toneProfessional : Json := .str (.txt "Professional")

/-- `App.tsx` line 75: the fallback object used when no job matches the active
id (`jobs.find(j => j.id === activeJobId) || { title: '', ... }`). -/
def defaultCurrentJob : JobInfo :=
  { id := none, title := .txt "", company := .txt "", description := .txt "",
    companyUrl := some (.txt ""), sourceUrl := none, dateAdded := none,
    contextName := none, linkedResumeId := none, outputs := none }

/-- Derivation of `currentJob` (strict `===`: an undefined job id never equals
a null active id). -/
def currentJobOf (jobs : List JobInfo) (activeJobId : Option Str) : JobInfo :=
  match activeJobId with
  | some aid => (jobs.find? (fun j => j.id = some aid)).getD defaultCurrentJob
  | none => defaultCurrentJob

/-- Outcomes of the three awaited AI-boundary promises inside
`handleGenerate`: each settles with a value or a rejection message. -/
structure GenEnv where
  research : Except Str Json
  analysis : Except Str Json
  coverLetter : Except Str Str

/-- `Promise.all` over the two generation calls: both fulfil, or the joint
await rejects with a failing call's reason. -/
def promiseAll2 : Except Str Json → Except Str Json → Except Str (Json × Json)
  | .ok r, .ok a => .ok (r, a)
  | .error e, _ => .error e
  | .ok _, .error e => .error e

/-- `e.message || "An unexpected error occurred."`. -/
def errMessage (e : Str) : Str :=
  if e.truthy then e else .txt "An unexpected error occurred."

/-- `{...j.outputs, ...updates}`. -/
def mergeOutputs (base : Option Json) (upd : List (String × Json)) : Json :=
  .obj (objMerge (match base with | some v => spreadFields v | none => []) upd)

/-- `handleGenerate` from `App.tsx` (lines 258–317): guard, fan-out/fan-in of
research and analysis, cover-letter generation, state updates and the
write-back of outputs to the active job's history.  The `catch` turns any
rejection into the error state on the state as updated so far. -/
def handleGenerate (currentResume : Option SavedResume) (jobs : List JobInfo)
    (activeJobId : Option Str) (env : GenEnv) (st : AppState) :
    AppState × List JobInfo :=
  let currentJob := currentJobOf jobs activeJobId
  match currentResume with
  | none => (st, jobs)
  | some resume =>
    if !currentJob.title.truthy then (st, jobs)
    else
      let st1 := { st with resumeText := resume.textParams,
                           status := .researching, error := none }
      match promiseAll2 env.research env.analysis with
      | .error e => ({ st1 with status := .error, error := some (errMessage e) }, jobs)
      | .ok (researchResult, analysisResult) =>
        let st2 := { st1 with research := researchResult, analysis := analysisResult,
                              status := .generating }
        match env.coverLetter with
        | .error e => ({ st2 with status := .error, error := some (errMessage e) }, jobs)
        | .ok text =>
          let newCoverLetterState : Json :=
            .obj [("content", .str text), ("tone", toneProfessional),
                  ("isGenerating", .bool false)]
          let st3 := { st2 with status := .completed, coverLetter := newCoverLetterState }
          let jobs' := match activeJobId with
            | some aid =>
                if aid.truthy then
                  jobs.map (fun j => if j.id = some aid then
                    { j with outputs := some (mergeOutputs j.outputs
                        [("research", researchResult), ("analysis", analysisResult),
                         ("coverLetter", newCoverLetterState)]) } else j)
                else jobs
            | none => jobs
          (st3, jobs')

/-! ## Snapshot/hydrate coordinator

The controller module `domains/jobs/controllers/JobSnapshotController.ts` is
not present in the sources (only its callers in `App.tsx`,
`useJobManagement` and the route views are), so `createSnapshot` and
`hydrateFromJob` are modelled from the specification; the default workspace
shape is taken from the initial `AppState` literal in `App.tsx`
(lines 78–110). -/

/-- Modelled from the spec: `createSnapshot` of the missing
`JobSnapshotController` — a pure projection of the Workspace into a partial
`JobOutputs` bag carrying the five generated-content fields
(research/analysis/cover letter/LinkedIn/interview prep). -/
def createSnapshot (st : AppState) : Json :=
  .obj [("research", st.research), ("analysis", st.analysis),
        ("coverLetter", st.coverLetter), ("linkedIn", st.linkedIn),
        ("interviewPrep", st.interviewPrep)]

/-- Default cover-letter state (`App.tsx` initial `AppState`). -/
def defaultCoverLetterJson : Json :=
  .obj [("content", .str (.txt "")), ("isGenerating", .bool false),
        ("tone", toneProfessional)]

/-- Default LinkedIn state around the caller-supplied form input
(`clearWorkspace(appState.linkedIn.input)` keeps the input). -/
def defaultLinkedInJson (input : Json) : Json :=
  .obj [("input", input), ("generatedMessage", .str (.txt "")),
        ("isGenerating", .bool false)]

/-- Default interview-prep state (`App.tsx` initial `AppState`). -/
def defaultInterviewPrepJson : Json :=
  .obj [("questions", .arr []), ("isGenerating", .bool false)]

/-- The hydrated Workspace fields a job switch applies. -/
structure HydratedState where
  status : AppStatus
  resumeText : Str
  research : Json
  analysis : Json
  coverLetter : Json
  linkedIn : Json
  interviewPrep : Json

/-- The defined default Workspace shape: idle status, empty strings and
arrays, no research/analysis. -/
def defaultHydrated (input : Json) : HydratedState :=
  { status := .idle, resumeText := .txt "", research := .null, analysis := .null,
    coverLetter := defaultCoverLetterJson, linkedIn := defaultLinkedInJson input,
    interviewPrep := defaultInterviewPrepJson }

/-- Modelled from the spec: `hydrateFromJob` of the missing
`JobSnapshotController` — a pure projection from the incoming job that fills
every Workspace field with the job's stored output value when present and the
well-defined default otherwise; a missing job or absent `outputs` yields the
defaults.  The resume text is not carried in `outputs`. -/
def hydrateFromJob (job : Option JobInfo) (input : Json) : HydratedState :=
  match job with
  | none => defaultHydrated input
  | some j =>
    match j.outputs with
    | none => defaultHydrated input
    | some outs =>
      { status := .idle, resumeText := .txt "",
        research := (outs.get "research").getD .null,
        analysis := (outs.get "analysis").getD .null,
        coverLetter := (outs.get "coverLetter").getD defaultCoverLetterJson,
        linkedIn := (outs.get "linkedIn").getD (defaultLinkedInJson input),
        interviewPrep := (outs.get "interviewPrep").getD defaultInterviewPrepJson }

/-! ## Derived characterizations and sample data used by the statements -/

/-- A stored job record the load pipeline accepts: an object whose three
required fields are strings (the legacy migration path asks for nothing
more, so this is the exact acceptance condition). -/
def isValidJobRecord (v : Json) : Bool :=
  v.isObjectLike && v.fieldIsStr "title" && v.fieldIsStr "company" &&
  v.fieldIsStr "description"

/-- The runtime shape of a valid stored job record: required strings, typed
optional fields, revived date, outputs defaulted to `{}`. -/
def jobRecordValue (v : Json) : JobInfo :=
  { id := v.getStr "id",
    title := (v.getStr "title").getD (.txt ""),
    company := (v.getStr "company").getD (.txt ""),
    description := (v.getStr "description").getD (.txt ""),
    companyUrl := v.getStr "companyUrl",
    sourceUrl := v.getStr "sourceUrl",
    dateAdded := match v.getStr "dateAdded" with
      | some d => if d.truthy then some (newDate d) else none
      | none => none,
    contextName := v.getStr "contextName",
    linkedResumeId := v.getStr "linkedResumeId",
    outputs := some (Json.orElseJs (v.get "outputs") (.obj [])) }

/-- The top-level slice stored under key `k` of a blob, if the blob is a JSON
object carrying it. -/
def getSlice (b : StorageBlob) (k : String) : Option Json :=
  match b with
  | .json v => v.get k
  | _ => none

/-- The job of the spec's worked example:
`{id:"j1", title:"SWE", company:"Acme", description:"..."}`. -/
def exampleJob : JobInfo :=
  { id := some (.txt "j1"), title := .txt "SWE", company := .txt "Acme",
    description := .txt "...", companyUrl := none, sourceUrl := none,
    dateAdded := none, contextName := none, linkedResumeId := none,
    outputs := none }

/-- A sample resume with a valid upload date. -/
def exampleResume : SavedResume :=
  { id := .txt "r1", fileName := .txt "cv.pdf", file := some (),
    textParams := .txt "text", uploadDate := some 1700000000000 }

/-- The user-visible sentence per category: fixed for every category except
validation, which echoes the error's own message (with a fixed fallback for an
empty message). -/
def categoryMessage (c : ErrCategory) (msg : String) : String :=
  match c with
  | .network => "Connection issue. Please check your internet and try again."
  | .auth => "Your session has expired. Please log in again."
  | .validation => if msg = "" then "Please check your input and try again." else msg
  | .ai => "AI service temporarily unavailable. Please try again in a moment."
  | .fileUpload => "Could not read file. Please ensure it's a valid format."
  | .generic => "Something went wrong. Please try again."

/-- A sample workspace state with generated content. -/
def exampleAppState : AppState :=
  { status := .completed, error := none, resumeText := .txt "resume",
    research := .obj [("summary", .str (.txt "S")), ("sources", .arr [])],
    analysis := .null,
    coverLetter := .obj [("content", .str (.txt "CL")), ("tone", toneProfessional),
                         ("isGenerating", .bool false)],
    linkedIn := .obj [("input", .obj []), ("generatedMessage", .str (.txt "")),
                      ("isGenerating", .bool false)],
    interviewPrep := .obj [("questions", .arr []), ("isGenerating", .bool false)] }

/-! ## Theorems -/

/-- Claim C10: `deleteJob(id)` removes exactly the jobs whose identifier
equals the given id, leaves every other job unchanged and in order, nulls the
active job id when it was the deleted one and keeps it otherwise. -/
theorem deleteJob_removes_exactly (jobs : List JobInfo) (a : Option Str) (i : Str) :
    (∀ j, j ∈ (deleteJob jobs a i).1 ↔ (j ∈ jobs ∧ j.id ≠ some i)) ∧
    List.Sublist (deleteJob jobs a i).1 jobs ∧
    (deleteJob jobs a i).2 = (if a = some i then none else a) := by
  refine ⟨fun j => ?_, ?_, rfl⟩
  · simp [deleteJob, List.mem_filter]
  · simp only [deleteJob]
    exact List.filter_sublist jobs

/-- Claim C6: every state of the career store reachable through its actions
retains at most one resume, and `addResume` always replaces the whole list
with the single new resume, so adding a second resume leaves exactly one. -/
theorem career_single_resume :
    (∀ s, CareerReachable s → s.resumes.length ≤ 1) ∧
    (∀ (s : CareerState) (r : SavedResume),
      (careerStep s (.addResume r)).resumes = [r]) := by
  constructor
  · intro s h
    induction h with
    | init => simp [initialCareerState]
    | step a _ ih =>
      cases a with
      | addResume r => simp [careerStep, addResume]
      | selectResume i => simpa [careerStep, selectResume] using ih
      | deleteResume i =>
          exact le_trans
            (by simpa [careerStep, deleteResume] using
              List.length_filter_le (fun (r : SavedResume) => decide (r.id ≠ i)) _) ih
      | updateProfile p => simpa [careerStep, updateProfile] using ih
  · intro s r
    rfl

/-- Witness for C6 at a concrete reachable state. -/
theorem career_single_resume_witness :
    initialCareerState.resumes.length ≤ 1 ∧
    (careerStep initialCareerState (.addResume exampleResume)).resumes = [exampleResume] :=
  ⟨career_single_resume.1 initialCareerState CareerReachable.init,
   career_single_resume.2 initialCareerState exampleResume⟩

/-- Claim C4: hydrating with a missing job, a job without prior outputs, or an
empty outputs bag yields the defined default Workspace shape — idle status,
empty strings and arrays, no research/analysis — with every field filled (the
function is total, so no exception is possible). -/
theorem hydrate_defaults (input : Json) (j : JobInfo) :
    hydrateFromJob none input = defaultHydrated input ∧
    hydrateFromJob (some { j with outputs := none }) input = defaultHydrated input ∧
    hydrateFromJob (some { j with outputs := some (.obj []) }) input = defaultHydrated input ∧
    (defaultHydrated input).status = .idle ∧
    (defaultHydrated input).resumeText = .txt "" ∧
    (defaultHydrated input).research = .null ∧
    (defaultHydrated input).analysis = .null ∧
    (defaultHydrated input).coverLetter.get "content" = some (.str (.txt "")) ∧
    (defaultHydrated input).linkedIn.get "generatedMessage" = some (.str (.txt "")) ∧
    (defaultHydrated input).interviewPrep.get "questions" = some (.arr []) :=
  ⟨rfl, rfl, rfl, rfl, rfl, rfl, rfl, rfl, rfl, rfl⟩

/-- Helper for C1: after `updateJobOutputs`, looking up the same id finds a job
whose outputs are the stored bag. -/
theorem updateJobOutputs_find (jobs : List JobInfo) (jid : Str) (o : Json)
    (h : ∃ j ∈ jobs, j.id = some jid) :
    ∃ j0, (updateJobOutputs jobs jid o).find? (fun j => j.id = some jid) = some j0 ∧
      j0.outputs = some o := by
  induction jobs with
  | nil => simp at h
  | cons j t ih =>
    by_cases hj : j.id = some jid
    · refine ⟨{ j with outputs := some o }, ?_, rfl⟩
      simp [updateJobOutputs, hj]
    · obtain ⟨j', hj', hid⟩ := h
      rcases List.mem_cons.mp hj' with rfl | hmem
      · exact absurd hid hj
      · obtain ⟨j0, hfind, ho⟩ := ih ⟨j', hmem, hid⟩
        refine ⟨j0, ?_, ho⟩
        simpa [updateJobOutputs, hj] using hfind

/-- Claim C1: snapshotting the current workspace into a job present in the
list and hydrating from that same job restores every outputs-carried Workspace
field (research, analysis, cover letter, LinkedIn, interview prep)
field-for-field; fields not carried in `outputs` are exempt. -/
theorem snapshot_hydrate_roundtrip (jobs : List JobInfo) (st : AppState)
    (jid : Str) (input : Json) (h : ∃ j ∈ jobs, j.id = some jid) :
    (hydrateFromJob ((updateJobOutputs jobs jid (createSnapshot st)).find?
        (fun j => j.id = some jid)) input).research = st.research ∧
    (hydrateFromJob ((updateJobOutputs jobs jid (createSnapshot st)).find?
        (fun j => j.id = some jid)) input).analysis = st.analysis ∧
    (hydrateFromJob ((updateJobOutputs jobs jid (createSnapshot st)).find?
        (fun j => j.id = some jid)) input).coverLetter = st.coverLetter ∧
    (hydrateFromJob ((updateJobOutputs jobs jid (createSnapshot st)).find?
        (fun j => j.id = some jid)) input).linkedIn = st.linkedIn ∧
    (hydrateFromJob ((updateJobOutputs jobs jid (createSnapshot st)).find?
        (fun j => j.id = some jid)) input).interviewPrep = st.interviewPrep := by
  obtain ⟨j0, hfind, ho⟩ := updateJobOutputs_find jobs jid (createSnapshot st) h
  rw [hfind]
  simp [hydrateFromJob, ho, createSnapshot, Json.get, List.lookup]

/-- Witness for C1 at a concrete job list and workspace state. -/
theorem snapshot_hydrate_roundtrip_witness :
    (hydrateFromJob ((updateJobOutputs [exampleJob] (.txt "j1")
        (createSnapshot exampleAppState)).find?
        (fun j => j.id = some (.txt "j1"))) (.obj [])).research =
      exampleAppState.research ∧
    (hydrateFromJob ((updateJobOutputs [exampleJob] (.txt "j1")
        (createSnapshot exampleAppState)).find?
        (fun j => j.id = some (.txt "j1"))) (.obj [])).coverLetter =
      exampleAppState.coverLetter :=
  ⟨(snapshot_hydrate_roundtrip [exampleJob] exampleAppState (.txt "j1") (.obj [])
      ⟨exampleJob, by simp, rfl⟩).1,
   (snapshot_hydrate_roundtrip [exampleJob] exampleAppState (.txt "j1") (.obj [])
      ⟨exampleJob, by simp, rfl⟩).2.2.1⟩

/-- Claim C9: the generation step joins the company-research and
resume-analysis calls with no partial-failure handling — if either rejects,
the whole step fails: the workspace enters the error state with an error
message set, and nothing else changes (no research/analysis stored, cover
letter untouched, job history untouched — no outputs are produced). -/
theorem generate_joint_failure (resume : SavedResume) (jobs : List JobInfo)
    (activeJobId : Option Str) (env : GenEnv) (st : AppState)
    (htitle : (currentJobOf jobs activeJobId).title.truthy = true)
    (hfail : (∃ e, env.research = .error e) ∨ (∃ e, env.analysis = .error e)) :
    ∃ e, handleGenerate (some resume) jobs activeJobId env st =
      ({ st with resumeText := resume.textParams, status := .error,
                 error := some e }, jobs) := by
  rcases hfail with ⟨e, he⟩ | ⟨e, he⟩
  · exact ⟨errMessage e, by simp [handleGenerate, promiseAll2, htitle, he]⟩
  · cases hr : env.research with
    | error e' => exact ⟨errMessage e', by simp [handleGenerate, promiseAll2, htitle, hr]⟩
    | ok r => exact ⟨errMessage e, by simp [handleGenerate, promiseAll2, htitle, hr, he]⟩

/-- Witness for C9: a research rejection at concrete inputs. -/
theorem generate_joint_failure_witness :
    ∃ e, handleGenerate (some exampleResume) [exampleJob] (some (.txt "j1"))
      { research := .error (.txt "boom"), analysis := .ok .null,
        coverLetter := .ok (.txt "cl") } exampleAppState =
      ({ exampleAppState with resumeText := exampleResume.textParams,
                              status := .error, error := some e }, [exampleJob]) :=
  generate_joint_failure exampleResume [exampleJob] (some (.txt "j1"))
    { research := .error (.txt "boom"), analysis := .ok .null,
      coverLetter := .ok (.txt "cl") } exampleAppState
    (by decide) (.inl ⟨.txt "boom", rfl⟩)

/-- Counterexample to C8 as stated: two distinct messages both classified as
validation errors produce two different user-visible sentences — the
validation category echoes the message instead of a fixed sentence. -/
theorem handleError_validation_echoes :
    classifyError "invalid A" = .validation ∧
    classifyError "invalid B" = .validation ∧
    handleError "invalid A" = "invalid A" ∧
    handleError "invalid B" = "invalid B" ∧
    handleError "invalid A" ≠ handleError "invalid B" := by
  refine ⟨by decide, by decide, by decide, by decide, by decide⟩

/-- Claim C8 (amended): `handleError` classifies the message into exactly one
of network/auth/validation/AI/file-upload or the catch-all, checking the
categories in that order, and emits one fixed sentence per category — except
the validation category, which echoes the error's own message (with a fixed
fallback for an empty message).  Consequently two messages of the same
non-validation category always get the same sentence. -/
theorem handleError_per_category (msg : String) :
    handleError msg = categoryMessage (classifyError msg) msg ∧
    (∀ m2, classifyError msg = classifyError m2 →
      classifyError msg ≠ ErrCategory.validation →
      handleError msg = handleError m2) := by
  have hmain : ∀ m, handleError m = categoryMessage (classifyError m) m := by
    intro m
    by_cases h1 : isNetworkError m <;> by_cases h2 : isAuthError m <;>
      by_cases h3 : isValidationError m <;> by_cases h4 : isAIError m <;>
      by_cases h5 : isFileUploadError m <;>
      simp [handleError, classifyError, categoryMessage, h1, h2, h3, h4, h5]
  refine ⟨hmain msg, fun m2 heq hne => ?_⟩
  rw [hmain msg, hmain m2, ← heq]
  cases h : classifyError msg with
  | validation => exact absurd h hne
  | network => rfl
  | auth => rfl
  | ai => rfl
  | fileUpload => rfl
  | generic => rfl

/-- Witness for C8 (amended) at concrete messages of the network category. -/
theorem handleError_per_category_witness :
    handleError "Network Error: refused" =
      categoryMessage (classifyError "Network Error: refused") "Network Error: refused" ∧
    handleError "Network Error: refused" = handleError "request timeout" :=
  ⟨(handleError_per_category "Network Error: refused").1,
   (handleError_per_category "Network Error: refused").2 "request timeout"
     (by decide) (by decide)⟩

/-- Claim C3: the two load functions recover every exception their bodies can
raise (the `catch` maps it to the empty/default result), and each parse or
validation failure — missing key, unparseable string, parsed value that fails
the object check — yields the empty jobs list, respectively the null career
result. -/
theorem load_never_raises :
    (∀ b r, loadJobsDataE b = .error r → loadJobsData b = []) ∧
    (∀ b r, loadCareerDataE b = .error r → loadCareerData b = none) ∧
    loadJobsData .missing = [] ∧ loadCareerData .missing = none ∧
    loadJobsData .corrupt = [] ∧ loadCareerData .corrupt = none ∧
    (∀ v : Json, v.isObjectLike = false →
      loadJobsData (.json v) = [] ∧ loadCareerData (.json v) = none) := by
  refine ⟨?_, ?_, rfl, rfl, rfl, rfl, ?_⟩
  · intro b r h; simp [loadJobsData, h]
  · intro b r h; simp [loadCareerData, h]
  · intro v hv
    cases v with
    | null => exact ⟨rfl, rfl⟩
    | bool b => exact ⟨rfl, rfl⟩
    | num n => exact ⟨rfl, rfl⟩
    | str s => exact ⟨rfl, rfl⟩
    | arr xs => simp [Json.isObjectLike] at hv
    | obj fs => simp [Json.isObjectLike] at hv

/-- Witness for C3 at a concrete non-object blob. -/
theorem load_never_raises_witness :
    loadJobsData (.json (.num 7)) = [] ∧ loadCareerData (.json (.num 7)) = none :=
  load_never_raises.2.2.2.2.2.2 (.num 7) rfl

/-- Counterexample to C7 as stated: on a prior blob that fails to parse,
`saveJobsData` leaves storage untouched, so the jobs slice is not written at
all (the claim quantifies over every prior storage blob). -/
theorem saveJobsData_corrupt_unchanged :
    saveJobsData [exampleJob] .corrupt = .corrupt ∧
    getSlice (saveJobsData [exampleJob] .corrupt) "jobs" = none :=
  ⟨rfl, rfl⟩

/-- Claim C7 (amended): for every prior blob that parses to a JSON object
whose sibling slices are truthy, `saveJobsData` writes the jobs slice and
leaves the stored `resumes` and `userProfile` values byte-for-byte unchanged,
and symmetrically `saveCareerData` writes the resumes/profile slices and
leaves the stored `jobs` value unchanged; when the prior blob fails to parse
(or is JSON `null`, on which slice access throws), storage is left
untouched instead. -/
theorem save_preserves_siblings (js : List JobInfo) (rs : List SavedResume)
    (p : Json) (fs : List (String × Json))
    (hr : ∃ vr, Json.get (.obj fs) "resumes" = some vr ∧ vr.truthy = true)
    (hp : ∃ vp, Json.get (.obj fs) "userProfile" = some vp ∧ vp.truthy = true)
    (hj : ∃ vj, Json.get (.obj fs) "jobs" = some vj ∧ vj.truthy = true) :
    getSlice (saveJobsData js (.json (.obj fs))) "resumes" = Json.get (.obj fs) "resumes" ∧
    getSlice (saveJobsData js (.json (.obj fs))) "userProfile" = Json.get (.obj fs) "userProfile" ∧
    getSlice (saveJobsData js (.json (.obj fs))) "jobs" = some (.arr (js.map encodeJob)) ∧
    getSlice (saveCareerData rs p (.json (.obj fs))) "jobs" = Json.get (.obj fs) "jobs" ∧
    getSlice (saveCareerData rs p (.json (.obj fs))) "resumes" = some (.arr (rs.map encodeResume)) ∧
    getSlice (saveCareerData rs p (.json (.obj fs))) "userProfile" = some p := by
  obtain ⟨vr, hvr, htr⟩ := hr
  obtain ⟨vp, hvp, htp⟩ := hp
  obtain ⟨vj, hvj, htj⟩ := hj
  simp only [Json.get] at hvr hvp hvj
  have h1 : saveJobsData js (.json (.obj fs)) = .json (.obj
      [("resumes", Json.orElseJs (List.lookup "resumes" fs) (.arr [])),
       ("jobs", .arr (js.map encodeJob)),
       ("userProfile", Json.orElseJs (List.lookup "userProfile" fs)
          (.obj [("activeResumeId", .null)]))]) := rfl
  have h2 : saveCareerData rs p (.json (.obj fs)) = .json (.obj
      [("resumes", .arr (rs.map encodeResume)),
       ("jobs", Json.orElseJs (List.lookup "jobs" fs) (.arr [])),
       ("userProfile", p)]) := rfl
  rw [h1, h2]
  simp [getSlice, Json.get, List.lookup, hvr, hvp, hvj, Json.orElseJs, htr, htp, htj]

/-- Witness for C7 (amended) at a concrete populated blob. -/
theorem save_preserves_siblings_witness :
    getSlice (saveJobsData [exampleJob]
        (.json (.obj [("resumes", .arr [.obj []]), ("jobs", .arr [.num 1]),
                      ("userProfile", .obj [("activeResumeId", .null)])])))
      "resumes" = some (.arr [.obj []]) ∧
    getSlice (saveCareerData [exampleResume] (.obj [])
        (.json (.obj [("resumes", .arr [.obj []]), ("jobs", .arr [.num 1]),
                      ("userProfile", .obj [("activeResumeId", .null)])])))
      "jobs" = some (.arr [.num 1]) := by
  have h := save_preserves_siblings [exampleJob] [exampleResume] (.obj [])
    [("resumes", .arr [.obj []]), ("jobs", .arr [.num 1]),
     ("userProfile", .obj [("activeResumeId", .null)])]
    ⟨.arr [.obj []], rfl, rfl⟩ ⟨.obj [("activeResumeId", .null)], rfl, rfl⟩
    ⟨.arr [.num 1], rfl, rfl⟩
  exact ⟨h.1.trans rfl, h.2.2.2.1.trans rfl⟩

/-- Helper: a filterMap by a guarded constructor is a filter followed by a
map. -/
theorem filterMap_guard_eq_filter_map {α β : Type} (p : α → Bool) (g : α → β)
    (l : List α) :
    l.filterMap (fun x => if p x then some (g x) else none) = (l.filter p).map g := by
  induction l with
  | nil => rfl
  | cons x t ih => by_cases h : p x <;> simp [h, ih]

/-- Helper: the load pipeline (`map parse`, drop `null`s, ensure outputs) is a
filterMap of the composed per-element action. -/
theorem pipeline_eq_filterMap (xs : List Json) :
    ((xs.map parseStoredJobInfo).reduceOption).map ensureOutputs =
      xs.filterMap (fun v => (parseStoredJobInfo v).map ensureOutputs) := by
  simp only [List.reduceOption, List.filterMap_map, List.map_filterMap]
  rfl

/-- Helper for C5: one stored record is kept exactly when it is an object with
string `title`/`company`/`description` (the versioned and legacy paths agree on
the resulting runtime value). -/
theorem parse_job_elem (v : Json) :
    (parseStoredJobInfo v).map ensureOutputs =
      (if isValidJobRecord v then some (jobRecordValue v) else none) := by
  by_cases hs : isStoredJobInfo v
  · have hv : isValidJobRecord v = true := by
      unfold isStoredJobInfo at hs
      unfold isValidJobRecord
      simp only [Bool.and_eq_true] at hs ⊢
      tauto
    simp [parseStoredJobInfo, migrateJobData, hs, hv, toJobInfo, ensureOutputs,
      jobRecordValue]
  · by_cases ho : v.isObjectLike
    · cases ht : v.getStr "title" with
      | none =>
        have hv : isValidJobRecord v = false := by
          simp [isValidJobRecord, Json.fieldIsStr, ht]
        simp [parseStoredJobInfo, migrateJobData, hs, ho, ht, hv]
      | some t =>
        cases hc : v.getStr "company" with
        | none =>
          have hv : isValidJobRecord v = false := by
            simp [isValidJobRecord, Json.fieldIsStr, hc]
          simp [parseStoredJobInfo, migrateJobData, hs, ho, ht, hc, hv]
        | some c =>
          cases hd : v.getStr "description" with
          | none =>
            have hv : isValidJobRecord v = false := by
              simp [isValidJobRecord, Json.fieldIsStr, hd]
            simp [parseStoredJobInfo, migrateJobData, hs, ho, ht, hc, hd, hv]
          | some d =>
            have hv : isValidJobRecord v = true := by
              simp [isValidJobRecord, Json.fieldIsStr, ht, hc, hd, ho]
            simp [parseStoredJobInfo, migrateJobData, hs, ho, ht, hc, hd, hv,
              toJobInfo, ensureOutputs, jobRecordValue]
    · have hv : isValidJobRecord v = false := by
        simp [isValidJobRecord, ho]
      simp [parseStoredJobInfo, migrateJobData, hs, ho, hv]

/-- Claim C5: on a stored jobs array mixing valid (legacy or versioned) and
malformed records, `loadJobsData` returns exactly the valid records converted
to their runtime shape, filtering each malformed record out individually
rather than failing the whole load. -/
theorem loadJobsData_filters_individually (fs : List (String × Json))
    (xs : List Json) (hjobs : List.lookup "jobs" fs = some (.arr xs)) :
    loadJobsData (.json (.obj fs)) = (xs.filter isValidJobRecord).map jobRecordValue := by
  have h1 : loadJobsData (.json (.obj fs)) =
      (((match List.lookup "jobs" fs with
         | some (.arr ys) => ys
         | _ => ([] : List Json)).map parseStoredJobInfo).reduceOption).map
        ensureOutputs := rfl
  rw [h1, hjobs]
  rw [pipeline_eq_filterMap]
  have h2 : xs.filterMap (fun v => (parseStoredJobInfo v).map ensureOutputs) =
      xs.filterMap (fun v => if isValidJobRecord v then some (jobRecordValue v) else none) := by
    simp only [parse_job_elem]
  rw [h2, filterMap_guard_eq_filter_map]

/-- Witness for C5: a blob mixing a versioned record, a legacy record and two
malformed records loads to exactly the two valid runtime jobs. -/
theorem loadJobsData_filters_individually_witness :
    loadJobsData (.json (.obj [("jobs", .arr
      [.obj [("id", .str (.txt "a")), ("title", .str (.txt "T")),
             ("company", .str (.txt "C")), ("description", .str (.txt "D")),
             ("version", .num 1)],
       .obj [("title", .str (.txt "T2")), ("company", .str (.txt "C2")),
             ("description", .str (.txt "D2"))],
       .str (.txt "junk"),
       .obj [("title", .num 5), ("company", .str (.txt "C")),
             ("description", .str (.txt "D"))]])])) =
      (([.obj [("id", .str (.txt "a")), ("title", .str (.txt "T")),
               ("company", .str (.txt "C")), ("description", .str (.txt "D")),
               ("version", .num 1)],
         .obj [("title", .str (.txt "T2")), ("company", .str (.txt "C2")),
               ("description", .str (.txt "D2"))],
         .str (.txt "junk"),
         .obj [("title", .num 5), ("company", .str (.txt "C")),
               ("description", .str (.txt "D"))]] : List Json).filter
        isValidJobRecord).map jobRecordValue ∧
    (([.obj [("id", .str (.txt "a")), ("title", .str (.txt "T")),
             ("company", .str (.txt "C")), ("description", .str (.txt "D")),
             ("version", .num 1)],
       .obj [("title", .str (.txt "T2")), ("company", .str (.txt "C2")),
             ("description", .str (.txt "D2"))],
       .str (.txt "junk"),
       .obj [("title", .num 5), ("company", .str (.txt "C")),
             ("description", .str (.txt "D"))]] : List Json).filter
      isValidJobRecord).length = 2 :=
  ⟨loadJobsData_filters_individually _ _ rfl, rfl⟩

/-- Helper for C2: serializing a resume with a valid upload date and parsing it
back yields the same resume with the file handle stripped. -/
theorem parseStoredResume_encode (r : SavedResume) (h : r.uploadDate.isSome = true) :
    parseStoredResume (encodeResume r) = some { r with file := none } := by
  rcases r with ⟨i, fn, fl, tp, ud⟩
  cases ud with
  | none => simp at h
  | some t => rfl


/-- Helper: looking up the key of a leading optional field. -/
theorem lookup_optField_self (k : String) (v : Option Json)
    (rest : List (String × Json)) :
    List.lookup k (optField k v ++ rest) =
      (match v with
       | some w => some w
       | none => List.lookup k rest) := by
  cases v <;> simp [optField, List.lookup]

/-- Helper: a leading optional field under a different key is skipped. -/
theorem lookup_optField_ne {k k' : String} (h : (k == k') = false) (v : Option Json)
    (rest : List (String × Json)) :
    List.lookup k (optField k' v ++ rest) = List.lookup k rest := by
  cases v <;> simp [optField, List.lookup, h]

/-- Helper: looking up the key of a trailing optional field. -/
theorem lookup_optField_last_self (k : String) (v : Option Json) :
    List.lookup k (optField k v) = v := by
  cases v <;> simp [optField, List.lookup]

/-- Helper: a trailing optional field under a different key yields nothing. -/
theorem lookup_optField_last_ne {k k' : String} (h : (k == k') = false)
    (v : Option Json) : List.lookup k (optField k' v) = none := by
  cases v <;> simp [optField, List.lookup, h]

/-- Field projections of a serialized job. -/
theorem encodeJob_get_id (j : JobInfo) : (encodeJob j).get "id" = j.id.map .str := by
  simp [encodeJob, Json.get, List.append_assoc, lookup_optField_ne,
    lookup_optField_self, lookup_optField_last_self, lookup_optField_last_ne,
    List.lookup]
  cases j.id <;> rfl

/-- Field projections of a serialized job. -/
theorem encodeJob_get_title (j : JobInfo) :
    (encodeJob j).get "title" = some (.str j.title) := by
  simp [encodeJob, Json.get, List.append_assoc, lookup_optField_ne,
    lookup_optField_self, lookup_optField_last_self, lookup_optField_last_ne,
    List.lookup]

/-- Field projections of a serialized job. -/
theorem encodeJob_get_company (j : JobInfo) :
    (encodeJob j).get "company" = some (.str j.company) := by
  simp [encodeJob, Json.get, List.append_assoc, lookup_optField_ne,
    lookup_optField_self, lookup_optField_last_self, lookup_optField_last_ne,
    List.lookup]

/-- Field projections of a serialized job. -/
theorem encodeJob_get_description (j : JobInfo) :
    (encodeJob j).get "description" = some (.str j.description) := by
  simp [encodeJob, Json.get, List.append_assoc, lookup_optField_ne,
    lookup_optField_self, lookup_optField_last_self, lookup_optField_last_ne,
    List.lookup]

/-- Field projections of a serialized job. -/
theorem encodeJob_get_companyUrl (j : JobInfo) :
    (encodeJob j).get "companyUrl" = j.companyUrl.map .str := by
  simp [encodeJob, Json.get, List.append_assoc, lookup_optField_ne,
    lookup_optField_self, lookup_optField_last_self, lookup_optField_last_ne,
    List.lookup]
  cases j.companyUrl <;> rfl

/-- Field projections of a serialized job. -/
theorem encodeJob_get_sourceUrl (j : JobInfo) :
    (encodeJob j).get "sourceUrl" = j.sourceUrl.map .str := by
  simp [encodeJob, Json.get, List.append_assoc, lookup_optField_ne,
    lookup_optField_self, lookup_optField_last_self, lookup_optField_last_ne,
    List.lookup]
  cases j.sourceUrl <;> rfl

/-- Field projections of a serialized job. -/
theorem encodeJob_get_dateAdded (j : JobInfo) :
    (encodeJob j).get "dateAdded" = j.dateAdded.map encodeDate := by
  simp [encodeJob, Json.get, List.append_assoc, lookup_optField_ne,
    lookup_optField_self, lookup_optField_last_self, lookup_optField_last_ne,
    List.lookup]
  cases j.dateAdded <;> rfl

/-- Field projections of a serialized job. -/
theorem encodeJob_get_contextName (j : JobInfo) :
    (encodeJob j).get "contextName" = j.contextName.map .str := by
  simp [encodeJob, Json.get, List.append_assoc, lookup_optField_ne,
    lookup_optField_self, lookup_optField_last_self, lookup_optField_last_ne,
    List.lookup]
  cases j.contextName <;> rfl

/-- Field projections of a serialized job. -/
theorem encodeJob_get_linkedResumeId (j : JobInfo) :
    (encodeJob j).get "linkedResumeId" = j.linkedResumeId.map .str := by
  simp [encodeJob, Json.get, List.append_assoc, lookup_optField_ne,
    lookup_optField_self, lookup_optField_last_self, lookup_optField_last_ne,
    List.lookup]
  cases j.linkedResumeId <;> rfl

/-- Field projections of a serialized job. -/
theorem encodeJob_get_outputs (j : JobInfo) : (encodeJob j).get "outputs" = j.outputs := by
  simp [encodeJob, Json.get, List.append_assoc, lookup_optField_ne,
    lookup_optField_self, lookup_optField_last_self, lookup_optField_last_ne,
    List.lookup]

/-- Field projections of a serialized job. -/
theorem encodeJob_get_version (j : JobInfo) : (encodeJob j).get "version" = none := by
  simp [encodeJob, Json.get, List.append_assoc, lookup_optField_ne,
    lookup_optField_self, lookup_optField_last_self, lookup_optField_last_ne,
    List.lookup]

/-- Helper for C2: a serialized job with a serializable date passes the stored
type guard. -/
theorem isStoredJobInfo_encodeJob (j : JobInfo) (h : j.dateAdded ≠ some none) :
    isStoredJobInfo (encodeJob j) = true := by
  simp only [isStoredJobInfo, Bool.and_eq_true]
  repeat' apply And.intro
  · rfl
  · simp [Json.fieldIsStr, Json.getStr, encodeJob_get_title]
  · simp [Json.fieldIsStr, Json.getStr, encodeJob_get_company]
  · simp [Json.fieldIsStr, Json.getStr, encodeJob_get_description]
  · simp only [Json.fieldAbsentOrStr, encodeJob_get_id]
    cases j.id <;> rfl
  · simp only [Json.fieldAbsentOrStr, encodeJob_get_companyUrl]
    cases j.companyUrl <;> rfl
  · simp only [Json.fieldAbsentOrStr, encodeJob_get_sourceUrl]
    cases j.sourceUrl <;> rfl
  · simp only [Json.fieldAbsentOrStr, encodeJob_get_dateAdded]
    cases hd : j.dateAdded with
    | none => rfl
    | some dv =>
      cases dv with
      | none => exact absurd hd h
      | some t => rfl
  · simp only [Json.fieldAbsentOrStr, encodeJob_get_contextName]
    cases j.contextName <;> rfl
  · simp only [Json.fieldAbsentOrStr, encodeJob_get_linkedResumeId]
    cases j.linkedResumeId <;> rfl
  · simp only [Json.fieldAbsentOrNum, encodeJob_get_version]

/-- Helper for C2: serializing a job whose date is not an invalid `Date` and
parsing it back yields the job unchanged. -/
theorem parseJob_encode (j : JobInfo) (h : j.dateAdded ≠ some none) :
    parseStoredJobInfo (encodeJob j) = some j := by
  have hg := isStoredJobInfo_encodeJob j h
  rcases j with ⟨i, t, c, d, cu, su, da, cn, lr, o⟩
  simp only [parseStoredJobInfo, migrateJobData, hg, if_true]
  simp only [Json.getStr, encodeJob_get_id, encodeJob_get_title,
    encodeJob_get_company, encodeJob_get_description, encodeJob_get_companyUrl,
    encodeJob_get_sourceUrl, encodeJob_get_dateAdded, encodeJob_get_contextName,
    encodeJob_get_linkedResumeId, encodeJob_get_outputs, encodeJob_get_version]
  simp only [Option.map, toJobInfo, Option.some.injEq, JobInfo.mk.injEq]
  repeat' apply And.intro
  · cases i <;> rfl
  · rfl
  · rfl
  · rfl
  · cases cu <;> rfl
  · cases su <;> rfl
  · rcases da with _ | (_ | t2)
    · rfl
    · exact absurd rfl h
    · rfl
  · cases cn <;> rfl
  · cases lr <;> rfl
  · trivial

/-- Helper for C2: the resume load pipeline inverts serialization list-wide. -/
theorem resume_pipeline (rs : List SavedResume)
    (hr : ∀ r ∈ rs, r.uploadDate.isSome = true) :
    ((rs.map encodeResume).map parseStoredResume).reduceOption =
      rs.map (fun r => { r with file := none }) := by
  induction rs with
  | nil => rfl
  | cons r t ih =>
    rw [List.map_cons, List.map_cons,
      parseStoredResume_encode r (hr r (List.mem_cons_self r t)),
      List.reduceOption_cons_of_some,
      ih (fun x hx => hr x (List.mem_cons_of_mem r hx)), List.map_cons]

/-- Helper for C2: the jobs load pipeline inverts serialization list-wide. -/
theorem job_pipeline (js : List JobInfo)
    (hj : ∀ j ∈ js, j.dateAdded ≠ some none) :
    (((js.map encodeJob).map parseStoredJobInfo).reduceOption).map ensureOutputs =
      js.map ensureOutputs := by
  induction js with
  | nil => rfl
  | cons j t ih =>
    rw [List.map_cons, List.map_cons,
      parseJob_encode j (hj j (List.mem_cons_self j t)),
      List.reduceOption_cons_of_some, List.map_cons,
      ih (fun x hx => hj x (List.mem_cons_of_mem j hx)), List.map_cons]

/-- Claim C2: writing the career slice over a blob carrying the serialized
jobs, then loading, preserves every resume and every job up to the stripped
non-persistable parts — the file handle is removed, dates round-trip through
their ISO-string stored form, and a job's missing outputs bag is defaulted to
the empty object.  (Valid runtime dates are assumed: an invalid `Date`
serializes to `null` and cannot round-trip.) -/
theorem save_then_load_preserves (rs : List SavedResume) (js : List JobInfo)
    (p : Json)
    (hr : ∀ r ∈ rs, r.uploadDate.isSome = true)
    (hj : ∀ j ∈ js, j.dateAdded ≠ some none) :
    (loadCareerData (saveCareerData rs p (saveJobsData js .missing))).map
        CareerLoad.resumes =
      some (rs.map (fun r => { r with file := none })) ∧
    loadJobsData (saveCareerData rs p (saveJobsData js .missing)) =
      js.map ensureOutputs := by
  have hb : saveCareerData rs p (saveJobsData js .missing) = .json (.obj
      [("resumes", .arr (rs.map encodeResume)), ("jobs", .arr (js.map encodeJob)),
       ("userProfile", p)]) := rfl
  rw [hb]
  constructor
  · have h2 : (loadCareerData (.json (.obj
        [("resumes", .arr (rs.map encodeResume)), ("jobs", .arr (js.map encodeJob)),
         ("userProfile", p)]))).map CareerLoad.resumes =
        some (((rs.map encodeResume).map parseStoredResume).reduceOption) := rfl
    rw [h2, resume_pipeline rs hr]
  · have h3 : loadJobsData (.json (.obj
        [("resumes", .arr (rs.map encodeResume)), ("jobs", .arr (js.map encodeJob)),
         ("userProfile", p)])) =
        (((js.map encodeJob).map parseStoredJobInfo).reduceOption).map
          ensureOutputs := rfl
    rw [h3, job_pipeline js hj]

/-- Witness for C2: the spec's worked example — a blob holding the single job
`{id:"j1", title:"SWE", company:"Acme", description:"..."}` loads back as one
job with id `j1` and `outputs` defaulted to the empty object. -/
theorem save_then_load_preserves_witness :
    loadJobsData (saveCareerData [] (.obj [("activeResumeId", .null)])
        (saveJobsData [exampleJob] .missing)) =
      [{ exampleJob with outputs := some (.obj []) }] ∧
    (loadCareerData (saveCareerData [] (.obj [("activeResumeId", .null)])
        (saveJobsData [exampleJob] .missing))).map CareerLoad.resumes = some [] :=
  ⟨((save_then_load_preserves [] [exampleJob] (.obj [("activeResumeId", .null)])
      (fun r hr => absurd hr (List.not_mem_nil r))
      (fun j hjm => by
        rcases List.mem_singleton.mp hjm with rfl
        simp [exampleJob])).2).trans rfl,
   (save_then_load_preserves [] [exampleJob] (.obj [("activeResumeId", .null)])
      (fun r hr => absurd hr (List.not_mem_nil r))
      (fun j hjm => by
        rcases List.mem_singleton.mp hjm with rfl
        simp [exampleJob])).1⟩
